import Mathlib

/-!
Shallow embedding of the recommendation-system repository
(`app/ml/recommender.py`, `app/ml/embeddings.py`, `app/kafka/consumer.py`,
`config.py`) for checking the natural-language specification.

Modelling conventions:
* numpy float vectors are modelled as `List ℝ` with exact real arithmetic;
* `datetime` values are rationals counting minutes since an arbitrary epoch,
  so `timedelta(hours=1)` is `60`;
* the PostgreSQL tables and the Redis cache are association lists inside a
  single `DBState`; TTL expiry is not modelled (no claim depends on it);
* async methods that read and write state become pure functions
  `DBState → result × DBState` (or `DBState → DBState`);
* enum classes from `app/models/reaction.py` (a module of this repository
  that is not under `src/`) are modelled from the spec: reaction `type`
  ranges over LIKE/DISLIKE and reaction targets are posts.
-/

namespace RecSys

/-! ## VectorMath: the numpy operations used by the code -/

/-- float vector, exact-real model of a numpy 1-D array. -/
abbrev Vec := List ℝ

/-- `np.dot` for 1-D arrays. -/
def dotV (v w : Vec) : ℝ := (List.zipWith (· * ·) v w).sum

/-- sum of squares of the entries; `np.linalg.norm(v) ** 2`. -/
def l2normSq (v : Vec) : ℝ := (v.map (fun x => x * x)).sum

/-- `np.linalg.norm`: the L2 norm. -/
noncomputable def l2norm (v : Vec) : ℝ := Real.sqrt (l2normSq v)

/-- elementwise addition (`+` on equal-length numpy arrays). -/
def vAdd (v w : Vec) : Vec := List.zipWith (· + ·) v w

/-- elementwise subtraction. -/
def vSub (v w : Vec) : Vec := List.zipWith (· - ·) v w

/-- scalar multiplication. -/
def vScale (c : ℝ) (v : Vec) : Vec := v.map (fun x => c * x)

/-- `np.zeros(D)`. -/
def zeros (D : ℕ) : Vec := List.replicate D 0

/-- elementwise sum of a batch of vectors (the inner loop of `np.mean(vs, axis=0)`). -/
def vSum : List Vec → Vec
  | [] => []
  | v :: vs => vs.foldl vAdd v

/-- `np.mean(vs, axis=0)`: elementwise mean. -/
noncomputable def vMean (vs : List Vec) : Vec :=
  vScale ((vs.length : ℝ))⁻¹ (vSum vs)

theorem l2normSq_nonneg (v : Vec) : 0 ≤ l2normSq v := by
  induction v with
  | nil => simp [l2normSq]
  | cons x t ih =>
      have hx : 0 ≤ x * x := mul_self_nonneg x
      simpa [l2normSq, List.sum_cons] using add_nonneg hx (by simpa [l2normSq] using ih)

theorem l2normSq_eq_zero_iff (v : Vec) : l2normSq v = 0 ↔ ∀ x ∈ v, x = 0 := by
  induction v with
  | nil => simp [l2normSq]
  | cons x t ih =>
      have hx : 0 ≤ x * x := mul_self_nonneg x
      have ht : 0 ≤ l2normSq t := l2normSq_nonneg t
      constructor
      · intro h y hy
        have hsum : x * x + l2normSq t = 0 := by simpa [l2normSq, List.sum_cons] using h
        have hx0 : x * x = 0 := le_antisymm (by linarith) hx
        have ht0 : l2normSq t = 0 := by linarith
        rcases List.mem_cons.mp hy with hy | hy
        · exact hy ▸ mul_self_eq_zero.mp hx0
        · exact (ih.mp ht0) y hy
      · intro h
        have hx0 : x = 0 := h x (by simp)
        have ht0 : l2normSq t = 0 := ih.mpr (fun y hy => h y (by simp [hy]))
        simp only [l2normSq, List.map_cons, List.sum_cons] at ht0 ⊢
        simp [hx0, ht0]

theorem l2norm_nonneg (v : Vec) : 0 ≤ l2norm v := Real.sqrt_nonneg _

theorem l2norm_eq_zero_iff (v : Vec) : l2norm v = 0 ↔ l2normSq v = 0 := by
  unfold l2norm
  rw [Real.sqrt_eq_zero']
  exact ⟨fun h => le_antisymm h (l2normSq_nonneg v), fun h => le_of_eq h⟩

/-- squared norm of an elementwise division by a constant. -/
theorem l2normSq_map_div (v : Vec) (c : ℝ) :
    l2normSq (v.map (fun x => x / c)) = l2normSq v / (c * c) := by
  induction v with
  | nil => simp [l2normSq]
  | cons x t ih =>
      simp only [List.map_cons, l2normSq, List.sum_cons] at *
      rw [ih]
      field_simp

/-! ## Data model (`app/database/models.py`)

Presentation-only columns (`photo_url`, `comments_count`, `dislikes_count`)
are omitted; no claim mentions them. -/

/-- Modelled from the spec: `ReactionType` of `app/models/reaction.py` is not
under `src/`; the spec fixes reaction `type` ∈ {LIKE, DISLIKE}. -/
inductive RType where
  | like
  | dislike
  deriving DecidableEq, Repr

/-- Modelled from the spec: `ReactionTargetType` of `app/models/reaction.py`
is not under `src/`; reactions target posts, other target kinds are opaque. -/
inductive TargetKind where
  | post
  | other
  deriving DecidableEq, Repr

instance : BEq RType := ⟨fun a b => decide (a = b)⟩
instance : BEq TargetKind := ⟨fun a b => decide (a = b)⟩

structure Post where
  id : ℤ
  author_id : String
  text : Option String
  embedding : Option Vec
  created_at : ℚ
  likes_count : ℤ

structure Reaction where
  id : ℤ
  target_type : TargetKind
  target_id : ℤ
  author_id : String
  type : RType
  created_at : ℚ

/-- the durable tables plus the Redis tier, as one explicit state. -/
structure DBState where
  posts : List Post
  reactions : List Reaction
  /-- `user_preferences` rows: `(user_id, preference_embedding)`;
  the inner `Option` is the nullable `preference_embedding` column. -/
  prefs : List (String × Option Vec)
  /-- FastCache entries `preference:{user_id} ↦ vector`. -/
  redis : List (String × Vec)

/-- `SELECT ... WHERE user_id = u` on `user_preferences` (`scalar_one_or_none`). -/
def lookupPrefRow (s : DBState) (u : String) : Option (Option Vec) :=
  (s.prefs.find? (fun e => e.1 == u)).map Prod.snd

/-- `redis_client.get(f"preference:{user_id}")`. -/
def lookupRedis (s : DBState) (u : String) : Option Vec :=
  (s.redis.find? (fun e => e.1 == u)).map Prod.snd

/-- `redis_client.setex(f"preference:{user_id}", ttl, bytes)`: replace or insert. -/
def setRedis (s : DBState) (u : String) (v : Vec) : DBState :=
  { s with redis := (u, v) :: s.redis.filter (fun e => e.1 != u) }

/-- `ContentBasedRecommender._save_user_preference`: select the row, mutate it
if present, insert otherwise (upsert). -/
def save_user_preference (s : DBState) (u : String) (v : Vec) : DBState :=
  if (s.prefs.find? (fun e => e.1 == u)).isSome then
    { s with prefs := s.prefs.map (fun e => if e.1 == u then (u, some v) else e) }
  else
    { s with prefs := (u, some v) :: s.prefs }

/-! ## Config (`config.py`): recency-boost defaults -/

def RECENCY_BOOST_1H : ℚ := 2
def RECENCY_BOOST_6H : ℚ := 9 / 5
def RECENCY_BOOST_24H : ℚ := 3 / 2
def RECENCY_BOOST_3D : ℚ := 13 / 10
def RECENCY_BOOST_7D : ℚ := 11 / 10
def RECENCY_BOOST_DEFAULT : ℚ := 1

/-- `ContentBasedRecommender._calculate_recency_boost`; `now` and `created_at`
are in minutes, so `timedelta(hours=1)` is `60`. -/
def calculate_recency_boost (now created_at : ℚ) : ℚ :=
  let age := now - created_at
  if age < 60 then RECENCY_BOOST_1H
  else if age < 6 * 60 then RECENCY_BOOST_6H
  else if age < 24 * 60 then RECENCY_BOOST_24H
  else if age < 3 * 24 * 60 then RECENCY_BOOST_3D
  else if age < 7 * 24 * 60 then RECENCY_BOOST_7D
  else RECENCY_BOOST_DEFAULT

/-! ## EmbeddingModel similarity functions (`app/ml/embeddings.py`) -/

/-- `EmbeddingModel.compute_similarity`: guarded cosine similarity. -/
noncomputable def compute_similarity (v w : Vec) : ℝ :=
  let norm1 := l2norm v
  let norm2 := l2norm w
  if norm1 = 0 ∨ norm2 = 0 then 0
  else dotV v w / (norm1 * norm2)

/-- the `1e-10` guard added to every denominator in `compute_similarities`. -/
noncomputable def simGuard : ℝ := 1 / 10 ^ 10

/-- divide a vector by its (guarded) norm, as `compute_similarities` does for
the query and for every row. -/
noncomputable def normalizeGuarded (v : Vec) : Vec :=
  v.map (fun x => x / (l2norm v + simGuard))

/-- `EmbeddingModel.compute_similarities`: one score per row. -/
noncomputable def compute_similarities (query : Vec) (rows : List Vec) : List ℝ :=
  let query_norm := normalizeGuarded query
  rows.map (fun r => dotV (normalizeGuarded r) query_norm)

/-! ## PreferenceCacheEngine (`app/ml/recommender.py`)

`D` is `settings.EMBEDDING_DIMENSION`, `wLike` is `settings.WEIGHT_LIKE_BOOST`,
`wDis` is `settings.WEIGHT_DISLIKE_PENALTY`; all three are required
environment settings without defaults, so they stay parameters. -/

/-- the reactions query of `_compute_preference_embedding`:
`author_id == user_id AND target_type == POST`. -/
def userPostReactions (s : DBState) (u : String) : List Reaction :=
  s.reactions.filter (fun r => r.author_id == u && r.target_type == TargetKind.post)

/-- `liked_post_ids`. -/
def likedTargetIds (s : DBState) (u : String) : List ℤ :=
  ((userPostReactions s u).filter (fun r => r.type == RType.like)).map Reaction.target_id

/-- `disliked_post_ids`. -/
def dislikedTargetIds (s : DBState) (u : String) : List ℤ :=
  ((userPostReactions s u).filter (fun r => r.type == RType.dislike)).map Reaction.target_id

/-- the posts query `Post.id IN ids AND Post.embedding IS NOT NULL`,
returning the embeddings. -/
def postsEmbeddingsByIds (s : DBState) (ids : List ℤ) : List Vec :=
  (s.posts.filter (fun p => ids.contains p.id)).filterMap Post.embedding

/-- `liked_embeddings` (queried only when `liked_post_ids` is non-empty,
otherwise left as the initial `[]`). -/
def likedEmbeddings (s : DBState) (u : String) : List Vec :=
  if (likedTargetIds s u).isEmpty then [] else postsEmbeddingsByIds s (likedTargetIds s u)

/-- `disliked_embeddings`. -/
def dislikedEmbeddings (s : DBState) (u : String) : List Vec :=
  if (dislikedTargetIds s u).isEmpty then [] else postsEmbeddingsByIds s (dislikedTargetIds s u)

/-- the unnormalized weighted sum: `np.zeros(D)` plus
`mean(liked) * WEIGHT_LIKE_BOOST` minus `mean(disliked) * WEIGHT_DISLIKE_PENALTY`. -/
noncomputable def rawPreference (D : ℕ) (wLike wDis : ℝ) (likedE dislikedE : List Vec) : Vec :=
  let base := zeros D
  let withLiked := if likedE.isEmpty then base else vAdd base (vScale wLike (vMean likedE))
  if dislikedE.isEmpty then withLiked else vSub withLiked (vScale wDis (vMean dislikedE))

/-- the final normalization step: divide by the norm only when it is positive. -/
noncomputable def finalizePreference (v : Vec) : Vec :=
  if 0 < l2norm v then v.map (fun x => x / l2norm v) else v

/-- `ContentBasedRecommender._compute_preference_embedding`. -/
noncomputable def compute_preference_embedding (D : ℕ) (wLike wDis : ℝ)
    (s : DBState) (u : String) : Option Vec :=
  if (userPostReactions s u).isEmpty then none
  else if (likedEmbeddings s u).isEmpty && (dislikedEmbeddings s u).isEmpty then none
  else some (finalizePreference
    (rawPreference D wLike wDis (likedEmbeddings s u) (dislikedEmbeddings s u)))

/-- `ContentBasedRecommender.get_user_preference_embedding`:
Redis tier, then the `user_preferences` row, then recompute-and-store.
Returns the result together with the post-call state.
`useRedis` models whether `redis_client` was passed. -/
noncomputable def get_user_preference_embedding (D : ℕ) (wLike wDis : ℝ) (useRedis : Bool)
    (s : DBState) (u : String) : Option Vec × DBState :=
  match (if useRedis then lookupRedis s u else none) with
  | some v => (some v, s)
  | none =>
    match lookupPrefRow s u with
    | some (some emb) =>
      if emb.isEmpty then (none, s)
      else (some emb, if useRedis then setRedis s u emb else s)
    | _ =>
      match compute_preference_embedding D wLike wDis s u with
      | some v =>
        let s1 := save_user_preference s u v
        (some v, if useRedis then setRedis s1 u v else s1)
      | none => (none, s)

/-- `ContentBasedRecommender.invalidate_user_preference`:
`DELETE FROM user_preferences WHERE user_id = :user_id` and nothing else. -/
def invalidate_user_preference (s : DBState) (u : String) : DBState :=
  { s with prefs := s.prefs.filter (fun e => e.1 != u) }

/-! ## RankingEngine: the scoring part of `get_recommendations` -/

/-- `ORDER BY created_at DESC` as a stable sort; PostgreSQL leaves the
relative order of equal keys unspecified, the model keeps store order. -/
def sortByCreatedAtDesc (l : List Post) : List Post :=
  List.insertionSort (fun a b => b.created_at ≤ a.created_at) l

/-- the `Reaction.target_id` select of `get_recommendations` (same filter as
`userPostReactions`). -/
def reactedPostIds (s : DBState) (u : String) : List ℤ :=
  (userPostReactions s u).map Reaction.target_id

/-- the candidate query of `get_recommendations`: embedding present,
optionally not self-authored, not already reacted to, newest first. -/
def candidatePosts (s : DBState) (u : String) (exclude_author_posts : Bool) : List Post :=
  sortByCreatedAtDesc (s.posts.filter (fun p =>
    p.embedding.isSome &&
    (!exclude_author_posts || p.author_id != u) &&
    !((reactedPostIds s u).contains p.id)))

/-- similarity of one candidate row against the user embedding, exactly as a
row of `compute_similarities` computes it. -/
noncomputable def candidateSimilarity (pref : Vec) (p : Post) : ℝ :=
  dotV (normalizeGuarded (p.embedding.getD [])) (normalizeGuarded pref)

/-- the scoring loop: keep candidates with `similarity >= MIN_SIMILARITY_THRESHOLD`
and attach `final_score = similarity * recency_boost`. -/
noncomputable def scoreCandidates (threshold : ℝ) (now : ℚ) (pref : Vec)
    (posts : List Post) : List (Post × ℝ) :=
  (posts.map (fun p => (p, candidateSimilarity pref p))).filterMap
    (fun ps => if threshold ≤ ps.2 then
        some (ps.1, ps.2 * ((calculate_recency_boost now ps.1.created_at : ℚ) : ℝ))
      else none)

/-- `posts_with_scores.sort(key=lambda x: x.similarity_score or 0, reverse=True)`:
Python's sort is stable, so this is a stable descending sort on the score and
nothing else; ties keep list order. -/
noncomputable def sortByScoreDesc (l : List (Post × ℝ)) : List (Post × ℝ) :=
  List.insertionSort (fun a b => b.2 ≤ a.2) l

/-- the ranked result of `get_recommendations` on an already-fetched
candidate list (preference present): score, sort, truncate. -/
noncomputable def rankCandidates (threshold : ℝ) (now : ℚ) (limit : ℕ) (pref : Vec)
    (cands : List Post) : List (Post × ℝ) :=
  (sortByScoreDesc (scoreCandidates threshold now pref cands)).take limit

/-- `get_recommendations` with a present preference, from the state:
fetch candidates, then rank. -/
noncomputable def get_recommendations_withPref (threshold : ℝ) (now : ℚ) (limit : ℕ)
    (s : DBState) (u : String) (pref : Vec) (exclude_author_posts : Bool) : List (Post × ℝ) :=
  rankCandidates threshold now limit pref (candidatePosts s u exclude_author_posts)

/-! ## EventIngestor (`app/kafka/consumer.py`): `post.created` -/

/-- payload of a `post.created` event. -/
structure PostCreatedEvent where
  id : ℤ
  authorId : String
  text : Option String
  createdAt : ℚ

/-- Python truthiness of `payload.get('text')`: `None` and `""` are falsy. -/
def pyTruthyStr : Option String → Bool
  | none => false
  | some t => !t.isEmpty

/-- `KafkaConsumerService._handle_post_created`; `embed` is the external
`embedding_model.encode` oracle. If a Post with the event id exists, skip;
otherwise embed the text (when truthy) and insert. -/
def handle_post_created (embed : String → Vec) (s : DBState) (e : PostCreatedEvent) : DBState :=
  if (s.posts.find? (fun p => p.id == e.id)).isSome then s
  else
    { s with posts := s.posts ++ [{
        id := e.id
        author_id := e.authorId
        text := e.text
        embedding := if pyTruthyStr e.text then some (embed (e.text.getD "")) else none
        created_at := e.createdAt
        likes_count := 0 }] }

/-- number of Post rows carrying a given id. -/
def countPostsWithId (s : DBState) (pid : ℤ) : ℕ :=
  (s.posts.filter (fun p => p.id == pid)).length

/-! ## Two concurrent `get_user_preference_embedding` calls

Every Redis/PostgreSQL access in the code is an `await`, so an asyncio
scheduler may interleave two calls at those boundaries.  A call is split into
its two atomic sections: the cache/row check (lines 88-100 of
`recommender.py`) and, on a miss, the recompute-and-store section (lines
117-125).  `computeCount` counts how many times
`_compute_preference_embedding` is entered. -/

inductive GetPhase where
  | ready
  | checkedMiss
  | finished (result : Option Vec)

structure ConcState where
  db : DBState
  t1 : GetPhase
  t2 : GetPhase
  computeCount : ℕ

/-- run the next atomic section of the call performed by thread `tid`. -/
noncomputable def threadStep (D : ℕ) (wLike wDis : ℝ) (u : String)
    (c : ConcState) (tid : Bool) : ConcState :=
  let ph := if tid then c.t1 else c.t2
  let setPh := fun (c' : ConcState) (p : GetPhase) =>
    if tid then { c' with t1 := p } else { c' with t2 := p }
  match ph with
  | GetPhase.ready =>
    match lookupRedis c.db u with
    | some v => setPh c (GetPhase.finished (some v))
    | none =>
      match lookupPrefRow c.db u with
      | some (some emb) =>
          if emb.isEmpty then setPh c (GetPhase.finished none)
          else setPh { c with db := setRedis c.db u emb } (GetPhase.finished (some emb))
      | _ => setPh c GetPhase.checkedMiss
  | GetPhase.checkedMiss =>
    match compute_preference_embedding D wLike wDis c.db u with
    | some v =>
        setPh { c with db := setRedis (save_user_preference c.db u v) u v,
                       computeCount := c.computeCount + 1 } (GetPhase.finished (some v))
    | none => setPh { c with computeCount := c.computeCount + 1 } (GetPhase.finished none)
  | GetPhase.finished _ => c

/-- run an interleaving: each entry names the thread taking the next step. -/
noncomputable def runSchedule (D : ℕ) (wLike wDis : ℝ) (u : String)
    (sched : List Bool) (c : ConcState) : ConcState :=
  sched.foldl (threadStep D wLike wDis u) c

/-- both calls start with the whole call still ahead of them. -/
def initConc (s : DBState) : ConcState :=
  { db := s, t1 := GetPhase.ready, t2 := GetPhase.ready, computeCount := 0 }

/-! ## Claims -/

/-- C8: the recency boost is the step function of the candidate's age with
the configured default tiers, strict upper bound on each bucket: under 1 hour
2.0, under 6 hours 1.8, under 24 hours 1.5, under 3 days 1.3, under 7 days
1.1, otherwise 1.0; a candidate aged exactly 59 minutes gets 2.0 and one aged
exactly 61 minutes gets 1.8. -/
theorem C8_recency_boost (now created_at : ℚ) :
    (now - created_at < 60 → calculate_recency_boost now created_at = 2) ∧
    (60 ≤ now - created_at → now - created_at < 360 →
      calculate_recency_boost now created_at = 9 / 5) ∧
    (360 ≤ now - created_at → now - created_at < 1440 →
      calculate_recency_boost now created_at = 3 / 2) ∧
    (1440 ≤ now - created_at → now - created_at < 4320 →
      calculate_recency_boost now created_at = 13 / 10) ∧
    (4320 ≤ now - created_at → now - created_at < 10080 →
      calculate_recency_boost now created_at = 11 / 10) ∧
    (10080 ≤ now - created_at → calculate_recency_boost now created_at = 1) ∧
    calculate_recency_boost 59 0 = 2 ∧
    calculate_recency_boost 61 0 = 9 / 5 := by
  refine ⟨?_, ?_, ?_, ?_, ?_, ?_, ?_, ?_⟩ <;>
  · intros
    simp only [calculate_recency_boost, RECENCY_BOOST_1H, RECENCY_BOOST_6H,
      RECENCY_BOOST_24H, RECENCY_BOOST_3D, RECENCY_BOOST_7D, RECENCY_BOOST_DEFAULT]
    split_ifs <;> first | rfl | (exfalso; linarith)

/-- C8 witness: the boundary example evaluated at a concrete age. -/
theorem C8_recency_boost_witness : calculate_recency_boost 59 0 = 2 :=
  (C8_recency_boost 59 0).1 (by norm_num)

/-- C10: cosine similarity is total: if either input has zero L2 norm,
`compute_similarity` returns exactly 0, and every denominator that
`compute_similarities` divides by is the norm plus the `1e-10` guard,
which is strictly positive for all inputs including zero vectors. -/
theorem C10_similarity_total (v w : Vec) :
    ((l2normSq v = 0 ∨ l2normSq w = 0) → compute_similarity v w = 0) ∧
    0 < l2norm v + simGuard := by
  constructor
  · intro h
    simp only [compute_similarity]
    rcases h with h | h
    · rw [if_pos (Or.inl ((l2norm_eq_zero_iff v).mpr h))]
    · rw [if_pos (Or.inr ((l2norm_eq_zero_iff w).mpr h))]
  · have h1 : (0 : ℝ) < simGuard := by norm_num [simGuard]
    have h2 := l2norm_nonneg v
    linarith

/-- C10 witness: the zero vector against a non-zero vector scores exactly 0. -/
theorem C10_similarity_total_witness :
    compute_similarity [0] [3, 4] = 0 ∧ 0 < l2norm [0] + simGuard :=
  ⟨(C10_similarity_total [0] [3, 4]).1 (Or.inl (by norm_num [l2normSq])),
   (C10_similarity_total [0] [3, 4]).2⟩

/-- C9: `post.created` ingestion is idempotent on the post id: handling the
same event twice equals handling it once, and starting from a store with no
Post row of that id, two deliveries leave exactly one row with that id. -/
theorem C9_post_created_idempotent (embed : String → Vec) (s : DBState) (e : PostCreatedEvent) :
    handle_post_created embed (handle_post_created embed s e) e = handle_post_created embed s e ∧
    (countPostsWithId s e.id = 0 →
      countPostsWithId (handle_post_created embed (handle_post_created embed s e) e) e.id = 1) := by
  have key : ∀ t : DBState, (t.posts.find? (fun p => p.id == e.id)).isSome = true →
      handle_post_created embed t e = t := by
    intro t ht
    unfold handle_post_created
    rw [if_pos ht]
  by_cases hf : (s.posts.find? (fun p => p.id == e.id)).isSome = true
  · have h1 : handle_post_created embed s e = s := key s hf
    refine ⟨by rw [h1]; exact h1, fun hcount => ?_⟩
    exfalso
    have hfil : s.posts.filter (fun p => p.id == e.id) = [] :=
      List.length_eq_zero.mp hcount
    have hnone : s.posts.find? (fun p => p.id == e.id) = none := by
      rw [List.find?_eq_none]
      intro x hx
      exact (List.filter_eq_nil_iff.mp hfil) x hx
    rw [hnone] at hf
    simp at hf
  · have hnone : s.posts.find? (fun p => p.id == e.id) = none :=
      Option.not_isSome_iff_eq_none.mp hf
    have h1 : handle_post_created embed s e =
        { s with posts := s.posts ++ [{
            id := e.id
            author_id := e.authorId
            text := e.text
            embedding := if pyTruthyStr e.text then some (embed (e.text.getD "")) else none
            created_at := e.createdAt
            likes_count := 0 }] } := by
      unfold handle_post_created
      rw [if_neg hf]
    have hfind2 : ((handle_post_created embed s e).posts.find? (fun p => p.id == e.id)).isSome
        = true := by
      rw [h1]
      simp only [List.find?_append, hnone, Option.none_or]
      simp [List.find?]
    have h2 : handle_post_created embed (handle_post_created embed s e) e
        = handle_post_created embed s e := key _ hfind2
    refine ⟨h2, fun hcount => ?_⟩
    rw [h2, h1]
    have hfil : s.posts.filter (fun p => p.id == e.id) = [] :=
      List.length_eq_zero.mp hcount
    simp [countPostsWithId, List.filter_append, hfil]

/-- helper: no reactions means the recomputation returns the absent result. -/
theorem compute_none_of_no_reactions (D : ℕ) (wLike wDis : ℝ) (s : DBState) (u : String)
    (h : (userPostReactions s u).isEmpty = true) :
    compute_preference_embedding D wLike wDis s u = none := by
  simp [compute_preference_embedding, h]

/-- C2 counterexample: for a user with zero reactions and no PreferenceStore
row, `get` does return "none", but nothing is persisted to PreferenceStore
(the claim requires the absent result to be persisted); the write is guarded
by `if preference_embedding is not None`. -/
theorem C2_counterexample :
    (get_user_preference_embedding 2 1 1 true (DBState.mk [] [] [] []) "u").1 = none ∧
    lookupPrefRow (get_user_preference_embedding 2 1 1 true (DBState.mk [] [] [] []) "u").2 "u"
      = none := by
  exact ⟨rfl, rfl⟩

/-- C2 amended: on a FastCache miss and a missing PreferenceStore row, `get`
computes from scratch; a present result is persisted and cached, an absent
result (in particular for a user with zero reactions) is returned as "none"
with the state unchanged — no row and no FastCache entry are created. -/
theorem C2_store_miss (D : ℕ) (wLike wDis : ℝ) (s : DBState) (u : String)
    (hredis : lookupRedis s u = none) (hrow : lookupPrefRow s u = none) :
    ((userPostReactions s u).isEmpty = true →
      get_user_preference_embedding D wLike wDis true s u = (none, s)) ∧
    (∀ v, compute_preference_embedding D wLike wDis s u = some v →
      get_user_preference_embedding D wLike wDis true s u
        = (some v, setRedis (save_user_preference s u v) u v)) ∧
    (compute_preference_embedding D wLike wDis s u = none →
      get_user_preference_embedding D wLike wDis true s u = (none, s)) := by
  refine ⟨fun hr => ?_, fun v hv => ?_, fun hv => ?_⟩
  · have hc := compute_none_of_no_reactions D wLike wDis s u hr
    simp [get_user_preference_embedding, hredis, hrow, hc]
  · simp [get_user_preference_embedding, hredis, hrow, hv]
  · simp [get_user_preference_embedding, hredis, hrow, hv]

/-- C2 witness: the empty store, a user with zero reactions. -/
theorem C2_store_miss_witness :
    get_user_preference_embedding 2 1 1 true (DBState.mk [] [] [] []) "u"
      = (none, DBState.mk [] [] [] []) :=
  (C2_store_miss 2 1 1 (DBState.mk [] [] [] []) "u" rfl rfl).1 rfl

/-- example post: id 10, embedding `[0, 2]`. -/
def exPost3 : Post :=
  { id := 10, author_id := "a", text := some "t", embedding := some [0, 2],
    created_at := 0, likes_count := 0 }

/-- example reaction: user "u" likes post 10. -/
def exReaction3 : Reaction :=
  { id := 1, target_type := TargetKind.post, target_id := 10, author_id := "u",
    type := RType.like, created_at := 0 }

/-- example state whose `user_preferences` row for "u" exists with the absent
("no preference") sentinel, while "u" has one usable reaction. -/
def exSt3 : DBState :=
  { posts := [exPost3], reactions := [exReaction3], prefs := [("u", none)], redis := [] }

/-- C3 counterexample: on a row with the absent sentinel, `get` does not
return "none": it recomputes (returning a present vector here) and populates
FastCache, because the code treats `preference_embedding is None` the same as
a missing row. -/
theorem C3_counterexample :
    (get_user_preference_embedding 2 1 1 true exSt3 "u").1.isSome = true ∧
    (lookupRedis (get_user_preference_embedding 2 1 1 true exSt3 "u").2 "u").isSome = true := by
  exact ⟨rfl, rfl⟩

/-- C3 amended: a PreferenceStore row whose `preference_embedding` is absent
is treated exactly like a missing row: `get` recomputes from reactions,
persists and caches a present result, and returns "none" (state unchanged)
only when the recomputation itself is absent. -/
theorem C3_sentinel_recomputes (D : ℕ) (wLike wDis : ℝ) (s : DBState) (u : String)
    (hredis : lookupRedis s u = none) (hrow : lookupPrefRow s u = some none) :
    (get_user_preference_embedding D wLike wDis true s u).1
      = compute_preference_embedding D wLike wDis s u ∧
    (∀ v, compute_preference_embedding D wLike wDis s u = some v →
      (get_user_preference_embedding D wLike wDis true s u).2
        = setRedis (save_user_preference s u v) u v) ∧
    (compute_preference_embedding D wLike wDis s u = none →
      (get_user_preference_embedding D wLike wDis true s u).2 = s) := by
  refine ⟨?_, fun v hv => ?_, fun hv => ?_⟩
  · cases hv : compute_preference_embedding D wLike wDis s u with
    | none => simp [get_user_preference_embedding, hredis, hrow, hv]
    | some v => simp [get_user_preference_embedding, hredis, hrow, hv]
  · simp [get_user_preference_embedding, hredis, hrow, hv]
  · simp [get_user_preference_embedding, hredis, hrow, hv]

/-- C3 witness: at the sentinel-row state, `get` returns whatever the
recomputation returns. -/
theorem C3_sentinel_recomputes_witness :
    (get_user_preference_embedding 2 1 1 true exSt3 "u").1
      = compute_preference_embedding 2 1 1 exSt3 "u" :=
  (C3_sentinel_recomputes 2 1 1 exSt3 "u" rfl rfl).1

/-- example state for C1: the durable row and the FastCache entry both hold
the stale vector `[1, 0]`, while the current reactions recompute to `[0, 1]`. -/
def exSt1 : DBState :=
  { posts := [exPost3], reactions := [exReaction3],
    prefs := [("u", some [1, 0])], redis := [("u", [1, 0])] }

/-- C1 counterexample: `invalidate_user_preference` only deletes the durable
row; the FastCache entry survives, so a `get` that starts after the
invalidation still returns the pre-invalidation vector `[1, 0]` even though
recomputing from the current Reaction/Post state yields `[0, 1]`. -/
theorem C1_counterexample :
    (get_user_preference_embedding 2 1 1 true exSt1 "u").1 = some [1, 0] ∧
    (get_user_preference_embedding 2 1 1 true
        (invalidate_user_preference exSt1 "u") "u").1 = some [1, 0] ∧
    lookupRedis (invalidate_user_preference exSt1 "u") "u" = some [1, 0] ∧
    compute_preference_embedding 2 1 1 (invalidate_user_preference exSt1 "u") "u"
      = some [0, 1] := by
  refine ⟨rfl, rfl, rfl, ?_⟩
  have h1 : compute_preference_embedding 2 1 1 (invalidate_user_preference exSt1 "u") "u"
      = some (finalizePreference (rawPreference 2 1 1 [[0, 2]] [])) := rfl
  have hraw : rawPreference 2 1 1 [[0, 2]] [] = [0, 2] := by
    simp [rawPreference, vAdd, vScale, vMean, vSum, zeros]
  have hnsq : l2normSq ([0, 2] : Vec) = 4 := by norm_num [l2normSq]
  have hn : l2norm ([0, 2] : Vec) = 2 := by
    unfold l2norm
    rw [hnsq, show (4 : ℝ) = 2 ^ 2 by norm_num, Real.sqrt_sq (by norm_num : (0 : ℝ) ≤ 2)]
  have hfin : finalizePreference [0, 2] = [0, 1] := by
    unfold finalizePreference
    rw [hn, if_pos (by norm_num : (0 : ℝ) < 2)]
    norm_num
  rw [h1, hraw, hfin]

/-- C1 amended: `invalidate_user_preference` deletes the PreferenceStore row
and does nothing else — no recomputation, no write, and no FastCache delete —
so while the FastCache entry lives, a later `get` still returns the
pre-invalidation vector. -/
theorem C1_invalidate_delete_only (D : ℕ) (wLike wDis : ℝ) (s : DBState) (u : String) :
    (invalidate_user_preference s u).redis = s.redis ∧
    (invalidate_user_preference s u).posts = s.posts ∧
    (invalidate_user_preference s u).reactions = s.reactions ∧
    lookupPrefRow (invalidate_user_preference s u) u = none ∧
    (∀ v, lookupRedis s u = some v →
      (get_user_preference_embedding D wLike wDis true (invalidate_user_preference s u) u).1
        = some v) := by
  refine ⟨rfl, rfl, rfl, ?_, fun v hv => ?_⟩
  · have hfind : ((s.prefs.filter (fun e => e.1 != u)).find? (fun e => e.1 == u)) = none := by
      rw [List.find?_eq_none]
      intro x hx
      have hne : (x.1 != u) = true := (List.mem_filter.mp hx).2
      simp only [bne_iff_ne, ne_eq] at hne
      simp [hne]
    simp [lookupPrefRow, invalidate_user_preference, hfind]
  · have h : lookupRedis (invalidate_user_preference s u) u = some v := hv
    simp [get_user_preference_embedding, h]

/-- C1 witness: at the concrete stale state, the post-invalidation `get`
returns the cached vector. -/
theorem C1_invalidate_delete_only_witness :
    (get_user_preference_embedding 2 1 1 true (invalidate_user_preference exSt1 "u") "u").1
      = some [1, 0] :=
  (C1_invalidate_delete_only 2 1 1 exSt1 "u").2.2.2.2 [1, 0] rfl

/-- example post liked by "u": embedding `[1, 0]`. -/
def exPostA : Post :=
  { id := 20, author_id := "a", text := some "t", embedding := some [1, 0],
    created_at := 0, likes_count := 0 }

/-- example post disliked by "u": embedding `[3, 0]`. -/
def exPostB : Post :=
  { id := 21, author_id := "b", text := some "t", embedding := some [3, 0],
    created_at := 0, likes_count := 0 }

/-- "u" likes post 20. -/
def exReactionLike : Reaction :=
  { id := 2, target_type := TargetKind.post, target_id := 20, author_id := "u",
    type := RType.like, created_at := 0 }

/-- "u" dislikes post 21. -/
def exReactionDislike : Reaction :=
  { id := 3, target_type := TargetKind.post, target_id := 21, author_id := "u",
    type := RType.dislike, created_at := 0 }

/-- state where, with `WEIGHT_LIKE_BOOST = 3` and `WEIGHT_DISLIKE_PENALTY = 1`,
the weighted liked and disliked means cancel exactly. -/
def exSt4 : DBState :=
  { posts := [exPostA, exPostB], reactions := [exReactionLike, exReactionDislike],
    prefs := [], redis := [] }

theorem exSt4_rawPreference_eq :
    rawPreference 2 3 1 (likedEmbeddings exSt4 "u") (dislikedEmbeddings exSt4 "u")
      = [0, 0] := by
  have hle : likedEmbeddings exSt4 "u" = [[1, 0]] := rfl
  have hde : dislikedEmbeddings exSt4 "u" = [[3, 0]] := rfl
  rw [hle, hde]
  norm_num [rawPreference, vAdd, vSub, vScale, vMean, vSum, zeros, List.replicate]

theorem finalize_zero_pair : finalizePreference [0, 0] = [0, 0] := by
  unfold finalizePreference
  have h0 : l2norm ([0, 0] : Vec) = 0 := by
    unfold l2norm
    rw [show l2normSq ([0, 0] : Vec) = 0 by norm_num [l2normSq], Real.sqrt_zero]
  rw [h0, if_neg (lt_irrefl 0)]

/-- C4 counterexample: with exactly cancelling weighted means the
recomputation does not return "none": it returns the zero vector as a
present result (the normalization guard skips dividing, nothing maps the
zero sum to the absent result). -/
theorem C4_counterexample :
    rawPreference 2 3 1 (likedEmbeddings exSt4 "u") (dislikedEmbeddings exSt4 "u") = [0, 0] ∧
    l2normSq ([0, 0] : Vec) = 0 ∧
    compute_preference_embedding 2 3 1 exSt4 "u" = some [0, 0] ∧
    compute_preference_embedding 2 3 1 exSt4 "u" ≠ none := by
  have hc : compute_preference_embedding 2 3 1 exSt4 "u"
      = some (finalizePreference
          (rawPreference 2 3 1 (likedEmbeddings exSt4 "u") (dislikedEmbeddings exSt4 "u"))) :=
    rfl
  refine ⟨exSt4_rawPreference_eq, by norm_num [l2normSq], ?_, ?_⟩
  · rw [hc, exSt4_rawPreference_eq, finalize_zero_pair]
  · rw [hc, exSt4_rawPreference_eq, finalize_zero_pair]
    simp

/-- C4 amended: when the unnormalized weighted sum has L2 norm zero (and the
reaction/embedding guards pass), the recomputation returns that sum itself as
a present result — the all-zeros vector — rather than "none". -/
theorem C4_cancellation_zero_vector (D : ℕ) (wLike wDis : ℝ) (s : DBState) (u : String)
    (h1 : (userPostReactions s u).isEmpty = false)
    (h2 : ((likedEmbeddings s u).isEmpty && (dislikedEmbeddings s u).isEmpty) = false)
    (h3 : l2normSq (rawPreference D wLike wDis (likedEmbeddings s u) (dislikedEmbeddings s u))
      = 0) :
    compute_preference_embedding D wLike wDis s u
      = some (rawPreference D wLike wDis (likedEmbeddings s u) (dislikedEmbeddings s u)) ∧
    ∀ x ∈ rawPreference D wLike wDis (likedEmbeddings s u) (dislikedEmbeddings s u), x = 0 := by
  have hnorm : l2norm (rawPreference D wLike wDis (likedEmbeddings s u) (dislikedEmbeddings s u))
      = 0 := by
    unfold l2norm
    rw [h3, Real.sqrt_zero]
  constructor
  · simp only [compute_preference_embedding, h1, h2]
    simp only [Bool.false_eq_true, if_false]
    unfold finalizePreference
    rw [hnorm, if_neg (lt_irrefl 0)]
  · exact (l2normSq_eq_zero_iff _).mp h3

/-- C4 witness: the amended statement at the concrete cancelling state. -/
theorem C4_cancellation_zero_vector_witness :
    compute_preference_embedding 2 3 1 exSt4 "u"
      = some (rawPreference 2 3 1 (likedEmbeddings exSt4 "u") (dislikedEmbeddings exSt4 "u")) :=
  (C4_cancellation_zero_vector 2 3 1 exSt4 "u" rfl rfl
    (by rw [exSt4_rawPreference_eq]; norm_num [l2normSq])).1

/-- C5 counterexample: running `get` at the cancelling state persists the
zero vector as a present `preference_embedding`; its L2 norm is 0, not
within any epsilon of 1, so the stored-vector normalization invariant fails. -/
theorem C5_counterexample :
    lookupPrefRow (get_user_preference_embedding 2 3 1 true exSt4 "u").2 "u"
      = some (some [0, 0]) ∧
    l2normSq ([0, 0] : Vec) = 0 ∧
    l2normSq ([0, 0] : Vec) ≠ 1 := by
  have hrow : lookupPrefRow (get_user_preference_embedding 2 3 1 true exSt4 "u").2 "u"
      = some (some (finalizePreference
          (rawPreference 2 3 1 (likedEmbeddings exSt4 "u") (dislikedEmbeddings exSt4 "u")))) :=
    rfl
  refine ⟨?_, by norm_num [l2normSq], by norm_num [l2normSq]⟩
  rw [hrow, exSt4_rawPreference_eq, finalize_zero_pair]

theorem l2norm_mul_self (w : Vec) : l2norm w * l2norm w = l2normSq w :=
  Real.mul_self_sqrt (l2normSq_nonneg w)

theorem finalize_normSq_unit_or_zero (w : Vec) :
    l2normSq (finalizePreference w) = 1 ∨ l2normSq (finalizePreference w) = 0 := by
  unfold finalizePreference
  by_cases h : 0 < l2norm w
  · left
    rw [if_pos h, l2normSq_map_div, l2norm_mul_self]
    have hpos : 0 < l2normSq w := Real.sqrt_pos.mp h
    exact div_self (ne_of_gt hpos)
  · right
    rw [if_neg h]
    exact (l2norm_eq_zero_iff w).mp (le_antisymm (not_lt.mp h) (l2norm_nonneg w))

/-- C5 amended: every vector the recomputation returns as present has L2 norm
exactly 1, except that exact like/dislike cancellation yields (and can
persist) the zero vector, whose squared norm is 0. -/
theorem C5_unit_or_zero (D : ℕ) (wLike wDis : ℝ) (s : DBState) (u : String) (v : Vec)
    (h : compute_preference_embedding D wLike wDis s u = some v) :
    l2normSq v = 1 ∨ l2normSq v = 0 := by
  unfold compute_preference_embedding at h
  by_cases h1 : (userPostReactions s u).isEmpty = true
  · rw [if_pos h1] at h
    cases h
  · rw [if_neg h1] at h
    by_cases h2 : ((likedEmbeddings s u).isEmpty && (dislikedEmbeddings s u).isEmpty) = true
    · rw [if_pos h2] at h
      cases h
    · rw [if_neg h2] at h
      have hv : v = finalizePreference
          (rawPreference D wLike wDis (likedEmbeddings s u) (dislikedEmbeddings s u)) :=
        (Option.some.inj h).symm
      rw [hv]
      exact finalize_normSq_unit_or_zero _

/-- example post with embedding `[3, 4]`. -/
def exPost5b : Post :=
  { id := 30, author_id := "a", text := some "t", embedding := some [3, 4],
    created_at := 0, likes_count := 0 }

/-- "u" likes post 30. -/
def exReaction5b : Reaction :=
  { id := 4, target_type := TargetKind.post, target_id := 30, author_id := "u",
    type := RType.like, created_at := 0 }

/-- state with a single liked post of embedding `[3, 4]` and
`WEIGHT_LIKE_BOOST = 2`: the recomputation yields `[3/5, 4/5]`. -/
def exSt5b : DBState :=
  { posts := [exPost5b], reactions := [exReaction5b], prefs := [], redis := [] }

theorem exSt5b_compute :
    compute_preference_embedding 2 2 1 exSt5b "u" = some [3 / 5, 4 / 5] := by
  have h1 : compute_preference_embedding 2 2 1 exSt5b "u"
      = some (finalizePreference (rawPreference 2 2 1 [[3, 4]] [])) := rfl
  have hraw : rawPreference 2 2 1 [[3, 4]] [] = [6, 8] := by
    norm_num [rawPreference, vAdd, vScale, vMean, vSum, zeros, List.replicate]
  have hn : l2norm ([6, 8] : Vec) = 10 := by
    unfold l2norm
    rw [show l2normSq ([6, 8] : Vec) = 100 by norm_num [l2normSq],
      show (100 : ℝ) = 10 ^ 2 by norm_num, Real.sqrt_sq (by norm_num : (0 : ℝ) ≤ 10)]
  have hfin : finalizePreference [6, 8] = [3 / 5, 4 / 5] := by
    unfold finalizePreference
    rw [hn, if_pos (by norm_num : (0 : ℝ) < 10)]
    norm_num
  rw [h1, hraw, hfin]

/-- C5 witness: the amended statement at a concrete present result. -/
theorem C5_unit_or_zero_witness :
    l2normSq ([3 / 5, 4 / 5] : Vec) = 1 ∨ l2normSq ([3 / 5, 4 / 5] : Vec) = 0 :=
  C5_unit_or_zero 2 2 1 exSt5b "u" [3 / 5, 4 / 5] exSt5b_compute

/-- helper: the recomputation reads only `posts` and `reactions`. -/
theorem compute_congr (D : ℕ) (wLike wDis : ℝ) (s s' : DBState) (u : String)
    (hp : s'.posts = s.posts) (hr : s'.reactions = s.reactions) :
    compute_preference_embedding D wLike wDis s' u
      = compute_preference_embedding D wLike wDis s u := by
  unfold compute_preference_embedding likedEmbeddings dislikedEmbeddings likedTargetIds
    dislikedTargetIds userPostReactions postsEmbeddingsByIds
  rw [hp, hr]

/-- helper: the upsert touches only the `prefs` table. -/
theorem save_user_preference_posts (s : DBState) (u : String) (v : Vec) :
    (save_user_preference s u v).posts = s.posts := by
  unfold save_user_preference
  split_ifs <;> rfl

/-- helper: the upsert leaves `reactions` unchanged. -/
theorem save_user_preference_reactions (s : DBState) (u : String) (v : Vec) :
    (save_user_preference s u v).reactions = s.reactions := by
  unfold save_user_preference
  split_ifs <;> rfl

/-- state with one usable reaction and nothing cached anywhere. -/
def exSt6 : DBState :=
  { posts := [exPost3], reactions := [exReaction3], prefs := [], redis := [] }

/-- C6 counterexample: with the cache and row both cold, the interleaving in
which both `get` calls pass their cache checks before either recomputes makes
each call run `_compute_preference_embedding` — two independent
recomputations, where single-flight would allow at most one. -/
theorem C6_counterexample :
    (runSchedule 2 1 1 "u" [true, false, true, false] (initConc exSt6)).computeCount = 2 := rfl

/-- C6 amended: `get_user_preference_embedding` has no per-user
serialization: whenever FastCache and the PreferenceStore row both miss, the
interleaving where both callers check before either computes performs one
recomputation per caller. -/
theorem C6_no_single_flight (D : ℕ) (wLike wDis : ℝ) (s : DBState) (u : String)
    (hredis : lookupRedis s u = none) (hrow : lookupPrefRow s u = none) :
    (runSchedule D wLike wDis u [true, false, true, false] (initConc s)).computeCount = 2 := by
  simp only [runSchedule, List.foldl]
  have h1 : threadStep D wLike wDis u (initConc s) true
      = ⟨s, GetPhase.checkedMiss, GetPhase.ready, 0⟩ := by
    simp [threadStep, initConc, hredis, hrow]
  rw [h1]
  have h2 : threadStep D wLike wDis u ⟨s, GetPhase.checkedMiss, GetPhase.ready, 0⟩ false
      = ⟨s, GetPhase.checkedMiss, GetPhase.checkedMiss, 0⟩ := by
    simp [threadStep, hredis, hrow]
  rw [h2]
  cases hc : compute_preference_embedding D wLike wDis s u with
  | none =>
      have h3 : threadStep D wLike wDis u ⟨s, GetPhase.checkedMiss, GetPhase.checkedMiss, 0⟩ true
          = ⟨s, GetPhase.finished none, GetPhase.checkedMiss, 1⟩ := by
        simp [threadStep, hc]
      rw [h3]
      have h4 : threadStep D wLike wDis u ⟨s, GetPhase.finished none, GetPhase.checkedMiss, 1⟩
            false
          = ⟨s, GetPhase.finished none, GetPhase.finished none, 2⟩ := by
        simp [threadStep, hc]
      rw [h4]
  | some v =>
      have h3 : threadStep D wLike wDis u ⟨s, GetPhase.checkedMiss, GetPhase.checkedMiss, 0⟩ true
          = ⟨setRedis (save_user_preference s u v) u v, GetPhase.finished (some v),
              GetPhase.checkedMiss, 1⟩ := by
        simp [threadStep, hc]
      rw [h3]
      have hp : (setRedis (save_user_preference s u v) u v).posts = s.posts :=
        save_user_preference_posts s u v
      have hr2 : (setRedis (save_user_preference s u v) u v).reactions = s.reactions :=
        save_user_preference_reactions s u v
      have hc2 : compute_preference_embedding D wLike wDis
          (setRedis (save_user_preference s u v) u v) u = some v := by
        rw [compute_congr D wLike wDis s (setRedis (save_user_preference s u v) u v) u hp hr2]
        exact hc
      have h4 : threadStep D wLike wDis u
          ⟨setRedis (save_user_preference s u v) u v, GetPhase.finished (some v),
            GetPhase.checkedMiss, 1⟩ false
          = ⟨setRedis (save_user_preference (setRedis (save_user_preference s u v) u v) u v) u v,
              GetPhase.finished (some v), GetPhase.finished (some v), 2⟩ := by
        simp [threadStep, hc2]
      rw [h4]

/-- C6 witness: both threads recompute at a concrete cold state. -/
theorem C6_no_single_flight_witness :
    (runSchedule 2 1 1 "u" [true, false, true, false]
      (initConc (DBState.mk [] [] [] []))).computeCount = 2 :=
  C6_no_single_flight 2 1 1 (DBState.mk [] [] [] []) "u" rfl rfl

/-- helper: a stable insertion sort leaves a list alone when the order
relation already holds between every pair of its elements. -/
theorem insertionSort_of_forall_rel {α : Type} (r : α → α → Prop) [DecidableRel r]
    (l : List α) (h : ∀ a ∈ l, ∀ b ∈ l, r a b) : List.insertionSort r l = l := by
  induction l with
  | nil => rfl
  | cons x t ih =>
      have ht : ∀ a ∈ t, ∀ b ∈ t, r a b := fun a ha b hb =>
        h a (List.mem_cons_of_mem x ha) b (List.mem_cons_of_mem x hb)
      rw [List.insertionSort, ih ht]
      cases t with
      | nil => rfl
      | cons y t' =>
          rw [List.orderedInsert, if_pos (h x (List.mem_cons_self x _) y
            (List.mem_cons_of_mem x (List.mem_cons_self y t')))]

/-- candidate post id 1, embedding `[1]`, created at time 0. -/
def exPostR1 : Post :=
  { id := 1, author_id := "a", text := some "t", embedding := some [1],
    created_at := 0, likes_count := 0 }

/-- candidate post id 2, identical embedding and timestamp. -/
def exPostR2 : Post :=
  { id := 2, author_id := "b", text := some "t", embedding := some [1],
    created_at := 0, likes_count := 0 }

/-- C7 counterexample: two candidates with equal score and equal
`created_at` keep their input order (the stable sort has no id tie-break):
fed id-descending, the ranked output is id-descending, and the two
permutations of the same candidate set rank in different orders. -/
theorem C7_counterexample :
    (rankCandidates 0 0 10 [1] [exPostR2, exPostR1]).map (fun q => q.1.id) = [2, 1] ∧
    (rankCandidates 0 0 10 [1] [exPostR1, exPostR2]).map (fun q => q.1.id) = [1, 2] := by
  have e1 : candidateSimilarity [1] exPostR1
      = dotV (normalizeGuarded [1]) (normalizeGuarded [1]) := rfl
  have e2 : candidateSimilarity [1] exPostR2
      = dotV (normalizeGuarded [1]) (normalizeGuarded [1]) := rfl
  have hpos : (0 : ℝ) ≤ dotV (normalizeGuarded [1]) (normalizeGuarded [1]) := by
    simpa [dotV, normalizeGuarded] using mul_self_nonneg (1 / (l2norm [1] + simGuard))
  have hp1 : (0 : ℝ) ≤ candidateSimilarity [1] exPostR1 := by rw [e1]; exact hpos
  have hp2 : (0 : ℝ) ≤ candidateSimilarity [1] exPostR2 := by rw [e2]; exact hpos
  have hcr1 : exPostR1.created_at = 0 := rfl
  have hcr2 : exPostR2.created_at = 0 := rfl
  constructor <;>
  · simp only [rankCandidates, scoreCandidates, sortByScoreDesc, List.map_cons, List.map_nil,
      List.filterMap_cons, List.filterMap_nil, hcr1, hcr2, e1, e2]
    rw [if_pos hpos]
    rw [if_pos hpos]
    simp only [List.insertionSort, List.orderedInsert]
    rw [if_pos (le_refl (dotV (normalizeGuarded [1]) (normalizeGuarded [1])
      * ((calculate_recency_boost 0 0 : ℚ) : ℝ)))]
    simp [exPostR1, exPostR2]

/-- C7 amended: the ranked output is sorted descending by final score, and
score ties are broken only by the candidate-list order (the sort is stable;
no id or timestamp tie-break of its own): when all scores are equal the
output is the scored candidate list unchanged. -/
theorem C7_stable_sort (threshold : ℝ) (now : ℚ) (limit : ℕ) (pref : Vec)
    (cands : List Post) :
    List.Sorted (fun a b => b.2 ≤ a.2) (rankCandidates threshold now limit pref cands) ∧
    ((∀ a ∈ scoreCandidates threshold now pref cands,
        ∀ b ∈ scoreCandidates threshold now pref cands, a.2 = b.2) →
      rankCandidates threshold now limit pref cands
        = (scoreCandidates threshold now pref cands).take limit) := by
  constructor
  · have hs : List.Sorted (fun a b => b.2 ≤ a.2)
        (sortByScoreDesc (scoreCandidates threshold now pref cands)) := by
      unfold sortByScoreDesc
      haveI : IsTotal (Post × ℝ) (fun a b => b.2 ≤ a.2) := ⟨fun a b => le_total b.2 a.2⟩
      haveI : IsTrans (Post × ℝ) (fun a b => b.2 ≤ a.2) :=
        ⟨fun a b c hab hbc => le_trans hbc hab⟩
      exact List.sorted_insertionSort _ _
    unfold rankCandidates
    exact List.Pairwise.sublist (List.take_sublist _ _) hs
  · intro h
    unfold rankCandidates sortByScoreDesc
    rw [insertionSort_of_forall_rel _ _ (fun a ha b hb => le_of_eq (h b hb a ha))]

/-- C7 witness: the tie-keeps-order part at a concrete (empty) input. -/
theorem C7_stable_sort_witness :
    rankCandidates 0 0 10 [] [] = (scoreCandidates 0 0 [] []).take 10 :=
  (C7_stable_sort 0 0 10 [] []).2 (by simp [scoreCandidates])

/-- C9 witness: two deliveries of a concrete event into the empty store
leave one row. -/
theorem C9_post_created_idempotent_witness :
    countPostsWithId
      (handle_post_created (fun _ => [1])
        (handle_post_created (fun _ => [1]) (DBState.mk [] [] [] [])
          (PostCreatedEvent.mk 7 "a" (some "hi") 0))
        (PostCreatedEvent.mk 7 "a" (some "hi") 0)) 7 = 1 :=
  (C9_post_created_idempotent (fun _ => [1]) (DBState.mk [] [] [] [])
    (PostCreatedEvent.mk 7 "a" (some "hi") 0)).2 rfl

end RecSys
